import Mathlib

/-!
Shallow embedding of the session orchestrator of `final_sentence_backend`
(`game_manager.py`, `models.py`, `routes_ws.py`).

Conventions of the embedding:
* Python floats (`ppm`, `progreso`, elapsed seconds) become `ℚ`.
* `datetime` timestamps become `Option ℚ` (only presence and ordering matter).
* Each stateful method becomes a pure function `Sala → ... → Sala × List Evento`
  returning the updated room and the broadcast messages it emits, in order.
* Database persistence, websocket bookkeeping and `asyncio` task scheduling are
  side effects outside the room state; timer expiry and the 25 s grace-window
  expiry are modelled as the functions the callbacks run on the room state.
-/

/-- `models.EstadoJugador`: the five members of the enum.  Note there is no
`JUGADO` member; `game_manager.py` line 304 tests `hasattr(EstadoJugador, "JUGADO")`,
which is false, so that assignment keeps the player's previous state. -/
inductive EstadoJugador
  | conectado
  | esperando
  | jugando
  | eliminado
  | ganador
deriving DecidableEq

/-- `models.Jugador`. -/
structure Jugador where
  id : String
  nombre : String
  avatar : String
  estado : EstadoJugador := EstadoJugador.conectado
  errores : Nat := 0
  ppm : ℚ := 0
  progreso : ℚ := 0
  conectado : Bool := true
deriving DecidableEq

/-- `models.Frase`. -/
structure Frase where
  id : String
  texto : String
  dificultad : String
  categoria : String
deriving DecidableEq

/-- `models.TipoSala`. -/
inductive TipoSala
  | publica
  | privada
deriving DecidableEq

/-- `models.Sala`. -/
structure Sala where
  id : String
  codigo : String
  tipo : TipoSala
  jugadores : List Jugador
  jugador_anfitrion : Option String
  max_jugadores : Nat
  estado : String := "esperando"
  ronda_actual : Nat := 0
  frase_actual : Option Frase := none
  tiempo_inicio : Option ℚ := none
  tiempo_limite : Nat := 45
deriving DecidableEq

/-- The broadcast messages sent by `transmitir_a_sala`, by message `tipo`. -/
inductive Evento
  | jugadorUnido (jugador_id : String)
  | mensajeError (mensaje : String)
  | partidaIniciada (frase : String) (tiempo_limite : Nat) (ronda_actual : Nat)
  | jugadorCompleto (jugador_id : String) (ppm : ℚ) (tiempo_tomado : ℚ)
  | jugadorError (jugador_id : String) (errores_actuales : Nat)
  | jugadorEliminado (jugador_id : String) (razon : String)
  | partidaFinalizada (ganador_id : Option String)
  | jugadorAbandono (jugador_id : String)
  | salaEliminada (sala_id : String)
deriving DecidableEq

/-- Python `str.strip()` with no argument: drop leading and trailing
whitespace.  Implemented structurally on the character list. -/
def pyStrip (s : String) : String :=
  ⟨((s.data.dropWhile Char.isWhitespace).reverse.dropWhile Char.isWhitespace).reverse⟩

/-- Helper for `pyPalabras`: number of maximal non-whitespace runs in a
character list; `enPalabra` says whether the previous character was part of a
word. -/
def cuentaPalabras : List Char → Bool → Nat
  | [], _ => 0
  | c :: resto, enPalabra =>
    if c.isWhitespace then cuentaPalabras resto false
    else (if enPalabra then 0 else 1) + cuentaPalabras resto true

/-- Python `len(s.split())`: the number of whitespace-separated words. -/
def pyPalabras (s : String) : Nat := cuentaPalabras s.data false

/-- `game_manager.py` line 296: `sala.frase_actual.texto if sala.frase_actual else ""`. -/
def fraseActualTexto (sala : Sala) : String :=
  match sala.frase_actual with
  | some f => f.texto
  | none => ""

/-- `game_manager.py` line 298: `len(frase_correcta.split()) if frase_correcta else 0`. -/
def palabrasFrase (frase_correcta : String) : Nat :=
  if frase_correcta != "" then pyPalabras frase_correcta else 0

/-- `game_manager.py` line 299:
`(palabras / tiempo_tomado) * 60 if tiempo_tomado > 0 and palabras > 0 else 0`. -/
def calcularPpm (palabras : Nat) (tiempo_tomado : ℚ) : ℚ :=
  if 0 < tiempo_tomado ∧ 0 < palabras then ((palabras : ℚ) / tiempo_tomado) * 60 else 0

/-- Mutation of the first player with the given id, as done through the object
found by `next((j for j in sala.jugadores if j.id == jugador_id), None)`. -/
def actualizarPrimero (js : List Jugador) (jugador_id : String) (f : Jugador → Jugador) :
    List Jugador :=
  match js with
  | [] => []
  | j :: resto =>
    if j.id == jugador_id then f j :: resto
    else j :: actualizarPrimero resto jugador_id f

/-- `next((j for j in sala.jugadores if j.id == jugador_id), None)`. -/
def buscarJugador (sala : Sala) (jugador_id : String) : Option Jugador :=
  sala.jugadores.find? (fun j => j.id == jugador_id)

/-- `[j for j in sala.jugadores if j.estado == EstadoJugador.JUGANDO]`. -/
def jugadoresVivos (sala : Sala) : List Jugador :=
  sala.jugadores.filter (fun j => j.estado == EstadoJugador.jugando)

/-- Python `max(js, key=lambda x: x.ppm, default=None)`: first maximum, since
`max` only replaces the current best on a strictly greater key. -/
def mejorPorPpm (js : List Jugador) : Option Jugador :=
  match js with
  | [] => none
  | j :: resto =>
    some (resto.foldl (fun mejor x => if mejor.ppm < x.ppm then x else mejor) j)

/-- Python `max(js, key=lambda x: (x.progreso, x.ppm), default=None)`:
lexicographic key, first maximum. -/
def mejorPorProgresoPpm (js : List Jugador) : Option Jugador :=
  match js with
  | [] => none
  | j :: resto =>
    some (resto.foldl (fun mejor x =>
      if mejor.progreso < x.progreso ∨ (mejor.progreso = x.progreso ∧ mejor.ppm < x.ppm)
      then x else mejor) j)

/-- `AdministradorJuego.finalizar_partida` (state part): sets the room state to
`"finalizada"` and broadcasts `partida_finalizada`.  It does not clear
`frase_actual` or `tiempo_inicio` and does not touch the players. -/
def finalizar_partida (sala : Sala) (ganador_id : Option String) : Sala × List Evento :=
  ({ sala with estado := "finalizada" }, [Evento.partidaFinalizada ganador_id])

/-- `AdministradorJuego.eliminar_jugador`: mark the player `ELIMINADO`, broadcast
`jugador_eliminado(demasiados_errores)`, then finish the round if at most one
player is left in state `JUGANDO`. -/
def eliminar_jugador (sala : Sala) (jugador_id : String) : Sala × List Evento :=
  match buscarJugador sala jugador_id with
  | none => (sala, [])
  | some _ =>
    let sala' : Sala := { sala with
      jugadores := actualizarPrimero sala.jugadores jugador_id
        (fun j => { j with estado := EstadoJugador.eliminado }) }
    let evs := [Evento.jugadorEliminado jugador_id "demasiados_errores"]
    match jugadoresVivos sala' with
    | [v] =>
      let r := finalizar_partida sala' (some v.id)
      (r.1, evs ++ r.2)
    | [] =>
      let r := finalizar_partida sala' none
      (r.1, evs ++ r.2)
    | _ => (sala', evs)

/-- `game_manager.py` lines 329-340, the termination check that closes
`procesar_escritura`: if every player has `progreso == 100` finish with the
best-ppm player as winner; otherwise if exactly one player is `JUGANDO` in a
room of more than one player, finish with that survivor as winner. -/
def verificar_terminacion (sala : Sala) : Sala × List Evento :=
  let vivos := jugadoresVivos sala
  let completados := sala.jugadores.filter (fun j => j.progreso == (100 : ℚ))
  if completados.length = sala.jugadores.length then
    finalizar_partida sala ((mejorPorPpm sala.jugadores).map Jugador.id)
  else
    match vivos with
    | [v] =>
      if 1 < sala.jugadores.length then finalizar_partida sala (some v.id)
      else (sala, [])
    | _ => (sala, [])

/-- `AdministradorJuego.procesar_escritura`.  A submission from a player who is
not in state `JUGANDO` (or not present) is ignored.  On a match (`texto.strip()
== frase_correcta.strip()`) the player's `ppm` and `progreso` are set; the
assignment `EstadoJugador.JUGADO if hasattr(EstadoJugador, "JUGADO") else
jugador.estado` keeps the state unchanged because the enum has no `JUGADO`
member.  On a mismatch errors and progress are updated and the player is
eliminated on reaching 3 errors.  Either way the termination check runs last. -/
def procesar_escritura (sala : Sala) (jugador_id : String) (texto : String)
    (tiempo_tomado : ℚ) : Sala × List Evento :=
  match buscarJugador sala jugador_id with
  | none => (sala, [])
  | some jugador =>
    if jugador.estado ≠ EstadoJugador.jugando then (sala, [])
    else
      let frase_correcta := fraseActualTexto sala
      let es_correcto : Bool := pyStrip texto == pyStrip frase_correcta
      let palabras := palabrasFrase frase_correcta
      let ppm := calcularPpm palabras tiempo_tomado
      if es_correcto then
        let sala' : Sala := { sala with
          jugadores := actualizarPrimero sala.jugadores jugador_id
            (fun j => { j with ppm := ppm, progreso := 100 }) }
        let r := verificar_terminacion sala'
        (r.1, Evento.jugadorCompleto jugador_id ppm tiempo_tomado :: r.2)
      else
        let errores_actuales := jugador.errores + 1
        let sala' : Sala := { sala with
          jugadores := actualizarPrimero sala.jugadores jugador_id
            (fun j => { j with errores := j.errores + 1, progreso := max 0 (j.progreso - 10) }) }
        let r :=
          if 3 ≤ errores_actuales then eliminar_jugador sala' jugador_id
          else (sala', [])
        let r' := verificar_terminacion r.1
        (r'.1, Evento.jugadorError jugador_id errores_actuales :: (r.2 ++ r'.2))

/-- `AdministradorJuego.iniciar_partida`.  `frases_terror` is the phrase pool
loaded at startup and `eleccion` models the index drawn by `random.choice`
(reduced modulo the pool size); `ahora` is the current timestamp.  A room that
is already `"jugando"` is returned untouched with no message; a room with
fewer than 2 players is returned untouched with an error broadcast. -/
def iniciar_partida (sala : Sala) (frases_terror : List Frase) (eleccion : Nat)
    (ahora : ℚ) : Sala × List Evento :=
  if sala.estado = "jugando" then (sala, [])
  else if sala.jugadores.length < 2 then
    (sala, [Evento.mensajeError "No hay suficientes jugadores para iniciar."])
  else
    let frase := if frases_terror.isEmpty then none
                 else frases_terror.get? (eleccion % frases_terror.length)
    let ronda := sala.ronda_actual + 1
    let sala' : Sala := { sala with
      estado := "jugando",
      ronda_actual := ronda,
      tiempo_inicio := some ahora,
      frase_actual := frase,
      jugadores := sala.jugadores.map (fun j =>
        { j with estado := EstadoJugador.jugando, errores := 0, progreso := 0, ppm := 0 }) }
    (sala', [Evento.partidaIniciada
      (match frase with | some f => f.texto | none => "")
      sala.tiempo_limite ronda])

/-- `AdministradorJuego._monitor_tiempo_ronda`, at the moment the
`asyncio.sleep(tiempo_limite)` returns: does nothing unless the room is still
`"jugando"`; otherwise eliminates (reason `tiempo_agotado`) every player that
is `JUGANDO` with `progreso < 100`, then resolves the winner from the players
still `JUGANDO` afterwards. -/
def monitor_tiempo_ronda (sala : Sala) : Sala × List Evento :=
  if sala.estado ≠ "jugando" then (sala, [])
  else
    let no_completaron := sala.jugadores.filter
      (fun j => decide (j.progreso < 100) && (j.estado == EstadoJugador.jugando))
    let sala' : Sala := { sala with
      jugadores := sala.jugadores.map (fun j =>
        if j.progreso < 100 ∧ j.estado = EstadoJugador.jugando
        then { j with estado := EstadoJugador.eliminado } else j) }
    let evs := no_completaron.map (fun j => Evento.jugadorEliminado j.id "tiempo_agotado")
    match jugadoresVivos sala' with
    | [v] =>
      let r := finalizar_partida sala' (some v.id)
      (r.1, evs ++ r.2)
    | [] =>
      let r := finalizar_partida sala' ((mejorPorProgresoPpm sala'.jugadores).map Jugador.id)
      (r.1, evs ++ r.2)
    | _ =>
      let r := finalizar_partida sala' none
      (r.1, evs ++ r.2)

/-- `AdministradorJuego.unir_sala` (HTTP join), in-memory part once the room is
found: a full room rejects the join (`None`) without change; a player already
present gets the room back unchanged; otherwise the player is appended and
`jugador_unido` is broadcast. -/
def unir_sala (sala : Sala) (jugador : Jugador) : Option Sala × List Evento :=
  if sala.max_jugadores ≤ sala.jugadores.length then (none, [])
  else if sala.jugadores.any (fun j => j.id == jugador.id) then (some sala, [])
  else
    (some { sala with jugadores := sala.jugadores ++ [jugador] },
      [Evento.jugadorUnido jugador.id])

/-- `AdministradorJuego.unir_sala_ws` (WebSocket join), once the player and the
room were found: the duplicate check comes before the capacity check here. -/
def unir_sala_ws (sala : Sala) (jugador : Jugador) : Option Sala × List Evento :=
  if sala.jugadores.any (fun j => j.id == jugador.id) then (some sala, [])
  else if sala.max_jugadores ≤ sala.jugadores.length then (none, [])
  else
    (some { sala with jugadores := sala.jugadores ++ [jugador] },
      [Evento.jugadorUnido jugador.id])

/-- `AdministradorJuego.reconectar_jugador`.  `jugador_bd` is the result of the
database lookup used when the player is not already in the room.  When the
player is present the room is returned unchanged — in particular the player's
`conectado` flag is NOT reset to true.  When absent, the stored player is
appended with no capacity check. -/
def reconectar_jugador (sala : Sala) (jugador_id : String) (jugador_bd : Option Jugador) :
    Sala × Bool × List Evento :=
  if sala.jugadores.any (fun j => j.id == jugador_id) then (sala, true, [])
  else
    match jugador_bd with
    | some jugador =>
      ({ sala with jugadores := sala.jugadores ++ [jugador] }, true,
        [Evento.jugadorUnido jugador.id])
    | none => (sala, false, [])

/-- `routes_ws.ws_sala`, `WebSocketDisconnect` handler: mark the (first) player
with this id `conectado = False`; nothing else changes. -/
def marcar_desconectado (sala : Sala) (jugador_id : String) : Sala :=
  { sala with
    jugadores := actualizarPrimero sala.jugadores jugador_id
      (fun j => { j with conectado := false }) }

/-- `AdministradorJuego._asegurar_host`. -/
def asegurar_host (sala : Sala) : Sala :=
  match sala.jugadores with
  | [] => { sala with jugador_anfitrion := none }
  | primero :: _ =>
    match sala.jugador_anfitrion with
    | none => { sala with jugador_anfitrion := some primero.id }
    | some anfitrion =>
      if sala.jugadores.any (fun j => j.id == anfitrion) then sala
      else { sala with jugador_anfitrion := some primero.id }

/-- `AdministradorJuego.abandonar_sala`: remove the player, reassign the host if
needed, broadcast `jugador_abandono`; an emptied room is deleted (`none`). -/
def abandonar_sala (sala : Sala) (jugador_id : String) : Option Sala × List Evento :=
  let sala' := asegurar_host
    { sala with jugadores := sala.jugadores.filter (fun j => j.id != jugador_id) }
  let evs := [Evento.jugadorAbandono jugador_id]
  if sala'.jugadores.isEmpty then (none, evs ++ [Evento.salaEliminada sala.id])
  else (some sala', evs)

/-- `routes_ws.ws_sala`, inner `remover_si_no_reconecta`, at the moment the 25 s
`asyncio.sleep` returns: if the player is still present and still marked
disconnected, they leave the room via `abandonar_sala`. -/
def remover_si_no_reconecta (sala : Sala) (jugador_id : String) : Option Sala × List Evento :=
  match buscarJugador sala jugador_id with
  | some jugador =>
    if jugador.conectado then (some sala, []) else abandonar_sala sala jugador_id
  | none => (some sala, [])

/-- `AdministradorJuego.crear_sala` (state part): a fresh room with the host as
only player, in state `"esperando"`. -/
def crear_sala (sala_id codigo : String) (jugador_anfitrion : Jugador) (tipo : TipoSala)
    (max_jugadores : Nat) : Sala :=
  { id := sala_id, codigo := codigo, tipo := tipo, jugadores := [jugador_anfitrion],
    jugador_anfitrion := some jugador_anfitrion.id, max_jugadores := max_jugadores,
    estado := "esperando", ronda_actual := 0, frase_actual := none,
    tiempo_inicio := none, tiempo_limite := 45 }

/-! ### Concrete fixtures used by the counterexamples and witnesses -/

def jugadorA : Jugador := { id := "A", nombre := "Ana", avatar := "a" }

def jugadorB : Jugador := { id := "B", nombre := "Beto", avatar := "b" }

def jugadorC : Jugador := { id := "C", nombre := "Caro", avatar := "c" }

def fraseUno : Frase :=
  { id := "f1", texto := "uno dos", dificultad := "media", categoria := "terror" }

/-- A waiting room holding the given players. -/
def salaBase (js : List Jugador) (maxJ : Nat) : Sala :=
  { id := "sala_1", codigo := "ABC123", tipo := TipoSala.publica, jugadores := js,
    jugador_anfitrion := some "A", max_jugadores := maxJ }

/-- Two-player room with a round just started on the phrase `"uno dos"`. -/
def salaDosJugando : Sala :=
  (iniciar_partida (salaBase [jugadorA, jugadorB] 4) [fraseUno] 0 0).1

/-- Three-player room with a round just started on the phrase `"uno dos"`. -/
def salaTresJugando : Sala :=
  (iniciar_partida (salaBase [jugadorA, jugadorB, jugadorC] 4) [fraseUno] 0 0).1

/-- `salaTresJugando` after A and B each submitted the exact phrase (A after 4 s,
B after 6 s).  Both keep state `JUGANDO` (there is no `JUGADO`/completed enum
member), so the round does not finish. -/
def salaTresAB : Sala :=
  (procesar_escritura (procesar_escritura salaTresJugando "A" "uno dos" 4).1
    "B" "uno dos" 6).1

/-! ### Helper lemmas about the operations -/

theorem actualizarPrimero_find? (js : List Jugador) (jugador_id : String)
    (f : Jugador → Jugador) (hf : ∀ j, (f j).id = j.id) :
    (actualizarPrimero js jugador_id f).find? (fun x => x.id == jugador_id) =
      (js.find? (fun x => x.id == jugador_id)).map f := by
  induction js with
  | nil => rfl
  | cons j resto ih =>
    cases hb : (j.id == jugador_id) with
    | true => simp [actualizarPrimero, hb, List.find?, hf j]
    | false => simp [actualizarPrimero, hb, List.find?, ih]

/-- The guard `palabras > 0` in line 299 is redundant as a value: the code's ppm
expression agrees with the plain formula `wordCount/elapsed*60` guarded only by
`elapsed > 0`, because `0 / t * 60 = 0`. -/
theorem calcularPpm_formula (s : String) (t : ℚ) :
    calcularPpm (palabrasFrase s) t =
      if 0 < t then (pyPalabras s : ℚ) / t * 60 else 0 := by
  unfold calcularPpm palabrasFrase
  by_cases hs : (s != "") = true
  · by_cases ht : 0 < t
    · by_cases hp : 0 < pyPalabras s
      · simp [hs, ht, hp]
      · have h0 : pyPalabras s = 0 := Nat.eq_zero_of_not_pos hp
        simp [hs, ht, hp, h0]
    · simp [hs, ht]
  · have hs' : s = "" := by simpa using hs
    subst hs'
    have h0 : pyPalabras "" = 0 := by decide
    by_cases ht : 0 < t <;> simp [hs, ht, h0]

/-- The room after the per-player update of a correct submission: the player's
`ppm` and `progreso` are set; their `estado` is untouched (no `JUGADO` member). -/
def salaTrasAcierto (sala : Sala) (jugador_id : String) (t : ℚ) : Sala :=
  { sala with
    jugadores := actualizarPrimero sala.jugadores jugador_id
      (fun j => { j with
        ppm := calcularPpm (palabrasFrase (fraseActualTexto sala)) t,
        progreso := 100 }) }

/-- The room after the per-player update of an incorrect submission. -/
def salaTrasFallo (sala : Sala) (jugador_id : String) : Sala :=
  { sala with
    jugadores := actualizarPrimero sala.jugadores jugador_id
      (fun j => { j with errores := j.errores + 1, progreso := max 0 (j.progreso - 10) }) }

theorem procesar_escritura_sin_jugando (sala : Sala) (jugador_id texto : String)
    (t : ℚ) (jugador : Jugador) (h : buscarJugador sala jugador_id = some jugador)
    (hest : jugador.estado ≠ EstadoJugador.jugando) :
    procesar_escritura sala jugador_id texto t = (sala, []) := by
  simp only [procesar_escritura, h]
  rw [if_pos hest]

theorem procesar_escritura_correcto (sala : Sala) (jugador_id texto : String)
    (t : ℚ) (jugador : Jugador) (h : buscarJugador sala jugador_id = some jugador)
    (hest : jugador.estado = EstadoJugador.jugando)
    (hok : pyStrip texto = pyStrip (fraseActualTexto sala)) :
    procesar_escritura sala jugador_id texto t =
      ((verificar_terminacion (salaTrasAcierto sala jugador_id t)).1,
        Evento.jugadorCompleto jugador_id
            (calcularPpm (palabrasFrase (fraseActualTexto sala)) t) t ::
          (verificar_terminacion (salaTrasAcierto sala jugador_id t)).2) := by
  simp only [procesar_escritura, h]
  rw [if_neg (by simp [hest])]
  simp [hok, salaTrasAcierto]

theorem procesar_escritura_incorrecto (sala : Sala) (jugador_id texto : String)
    (t : ℚ) (jugador : Jugador) (h : buscarJugador sala jugador_id = some jugador)
    (hest : jugador.estado = EstadoJugador.jugando)
    (hno : pyStrip texto ≠ pyStrip (fraseActualTexto sala)) :
    procesar_escritura sala jugador_id texto t =
      (let r := if 3 ≤ jugador.errores + 1
                then eliminar_jugador (salaTrasFallo sala jugador_id) jugador_id
                else (salaTrasFallo sala jugador_id, [])
       let r' := verificar_terminacion r.1
       (r'.1, Evento.jugadorError jugador_id (jugador.errores + 1) :: (r.2 ++ r'.2))) := by
  simp only [procesar_escritura, h]
  rw [if_neg (by simp [hest])]
  simp [hno, salaTrasFallo]

theorem finalizar_partida_jugadores (sala : Sala) (g : Option String) :
    (finalizar_partida sala g).1.jugadores = sala.jugadores := rfl

theorem verificar_terminacion_jugadores (sala : Sala) :
    (verificar_terminacion sala).1.jugadores = sala.jugadores := by
  simp only [verificar_terminacion]
  split
  · rfl
  · split <;> first | rfl | (split <;> rfl)

theorem eliminar_jugador_jugadores (sala : Sala) (jugador_id : String)
    (jugador : Jugador) (h : buscarJugador sala jugador_id = some jugador) :
    (eliminar_jugador sala jugador_id).1.jugadores =
      actualizarPrimero sala.jugadores jugador_id
        (fun j => { j with estado := EstadoJugador.eliminado }) := by
  simp only [eliminar_jugador, h]
  split <;> rfl

theorem buscarJugador_verificar (sala : Sala) (jugador_id : String) :
    buscarJugador (verificar_terminacion sala).1 jugador_id =
      buscarJugador sala jugador_id := by
  unfold buscarJugador
  rw [verificar_terminacion_jugadores]

theorem buscarJugador_salaTrasAcierto (sala : Sala) (jugador_id : String) (t : ℚ) :
    buscarJugador (salaTrasAcierto sala jugador_id t) jugador_id =
      (buscarJugador sala jugador_id).map
        (fun j => { j with
          ppm := calcularPpm (palabrasFrase (fraseActualTexto sala)) t,
          progreso := 100 }) := by
  unfold buscarJugador salaTrasAcierto
  exact actualizarPrimero_find? _ _ _ (fun j => rfl)

theorem buscarJugador_salaTrasFallo (sala : Sala) (jugador_id : String) :
    buscarJugador (salaTrasFallo sala jugador_id) jugador_id =
      (buscarJugador sala jugador_id).map
        (fun j => { j with errores := j.errores + 1, progreso := max 0 (j.progreso - 10) }) := by
  unfold buscarJugador salaTrasFallo
  exact actualizarPrimero_find? _ _ _ (fun j => rfl)

theorem procesar_escritura_incorrecto_elim (sala : Sala) (jugador_id texto : String)
    (t : ℚ) (jugador : Jugador) (h : buscarJugador sala jugador_id = some jugador)
    (hest : jugador.estado = EstadoJugador.jugando)
    (hno : pyStrip texto ≠ pyStrip (fraseActualTexto sala))
    (h3 : 3 ≤ jugador.errores + 1) :
    procesar_escritura sala jugador_id texto t =
      ((verificar_terminacion (eliminar_jugador (salaTrasFallo sala jugador_id) jugador_id).1).1,
        Evento.jugadorError jugador_id (jugador.errores + 1) ::
          ((eliminar_jugador (salaTrasFallo sala jugador_id) jugador_id).2 ++
            (verificar_terminacion
              (eliminar_jugador (salaTrasFallo sala jugador_id) jugador_id).1).2)) := by
  rw [procesar_escritura_incorrecto sala jugador_id texto t jugador h hest hno]
  simp only [if_pos h3]

theorem procesar_escritura_incorrecto_sigue (sala : Sala) (jugador_id texto : String)
    (t : ℚ) (jugador : Jugador) (h : buscarJugador sala jugador_id = some jugador)
    (hest : jugador.estado = EstadoJugador.jugando)
    (hno : pyStrip texto ≠ pyStrip (fraseActualTexto sala))
    (h3 : ¬ 3 ≤ jugador.errores + 1) :
    procesar_escritura sala jugador_id texto t =
      ((verificar_terminacion (salaTrasFallo sala jugador_id)).1,
        Evento.jugadorError jugador_id (jugador.errores + 1) ::
          (verificar_terminacion (salaTrasFallo sala jugador_id)).2) := by
  rw [procesar_escritura_incorrecto sala jugador_id texto t jugador h hest hno]
  simp only [if_neg h3, List.nil_append]

theorem buscarJugador_eliminar (sala : Sala) (jugador_id : String) (jugador : Jugador)
    (h : buscarJugador sala jugador_id = some jugador) :
    buscarJugador (eliminar_jugador sala jugador_id).1 jugador_id =
      some { jugador with estado := EstadoJugador.eliminado } := by
  unfold buscarJugador
  rw [eliminar_jugador_jugadores sala jugador_id jugador h,
    actualizarPrimero_find? sala.jugadores jugador_id
      (fun j => { j with estado := EstadoJugador.eliminado }) (fun j => rfl),
    show sala.jugadores.find? (fun x => x.id == jugador_id) = some jugador from h,
    Option.map_some']

/-! ### The claims -/

/-- **C1** (code bug).  The claim says a correct submission moves the player to
a `Completed` state distinct from Playing and Eliminated, so the player is no
longer counted as still Playing.  In the code this fails: `progreso` and `ppm`
are set as claimed, but `EstadoJugador` has no `JUGADO` member, so line 304 of
`game_manager.py` keeps `estado = JUGANDO` and the player still appears in
every subsequent `jugadores_vivos` computation. -/
theorem C1_acierto_no_cambia_estado (sala : Sala) (jugador_id texto : String)
    (t : ℚ) (jugador : Jugador) (h : buscarJugador sala jugador_id = some jugador)
    (hest : jugador.estado = EstadoJugador.jugando)
    (hok : pyStrip texto = pyStrip (fraseActualTexto sala)) :
    ∃ j', buscarJugador (procesar_escritura sala jugador_id texto t).1 jugador_id = some j' ∧
      j'.progreso = 100 ∧
      j'.ppm = calcularPpm (palabrasFrase (fraseActualTexto sala)) t ∧
      j'.estado = EstadoJugador.jugando ∧
      j' ∈ jugadoresVivos (procesar_escritura sala jugador_id texto t).1 := by
  have hred := procesar_escritura_correcto sala jugador_id texto t jugador h hest hok
  refine ⟨{ jugador with
      ppm := calcularPpm (palabrasFrase (fraseActualTexto sala)) t,
      progreso := 100 }, ?_, rfl, rfl, hest, ?_⟩
  · rw [hred]
    rw [show (((verificar_terminacion (salaTrasAcierto sala jugador_id t)).1,
        Evento.jugadorCompleto jugador_id
          (calcularPpm (palabrasFrase (fraseActualTexto sala)) t) t ::
        (verificar_terminacion (salaTrasAcierto sala jugador_id t)).2) : Sala × List Evento).1
      = (verificar_terminacion (salaTrasAcierto sala jugador_id t)).1 from rfl]
    rw [buscarJugador_verificar, buscarJugador_salaTrasAcierto, h, Option.map_some']
  · have hj : buscarJugador (procesar_escritura sala jugador_id texto t).1 jugador_id =
        some { jugador with
          ppm := calcularPpm (palabrasFrase (fraseActualTexto sala)) t,
          progreso := 100 } := by
      rw [hred, buscarJugador_verificar, buscarJugador_salaTrasAcierto, h, Option.map_some']
    have hmem := List.mem_of_find?_eq_some hj
    exact List.mem_filter.mpr ⟨hmem, by simp [hest]⟩

/-- Witness for C1: player A of `salaDosJugando` submits the exact phrase after
4 seconds; afterwards A has progress 100, wpm 30, and is still `JUGANDO`. -/
theorem C1_acierto_no_cambia_estado_testigo :
    ∃ j', buscarJugador (procesar_escritura salaDosJugando "A" "uno dos" 4).1 "A" = some j' ∧
      j'.progreso = 100 ∧
      j'.ppm = calcularPpm (palabrasFrase (fraseActualTexto salaDosJugando)) 4 ∧
      j'.estado = EstadoJugador.jugando ∧
      j' ∈ jugadoresVivos (procesar_escritura salaDosJugando "A" "uno dos" 4).1 :=
  C1_acierto_no_cambia_estado salaDosJugando "A" "uno dos" 4
    { id := "A", nombre := "Ana", avatar := "a", estado := EstadoJugador.jugando,
      errores := 0, ppm := 0, progreso := 0, conectado := true }
    (by with_unfolding_all decide) rfl (by with_unfolding_all decide)

/-- `salaTresAB` after C submits wrong text three times and is eliminated for
errors.  A and B have submitted the exact phrase, C is eliminated — every
player is terminal in the sense of the spec — yet the room stays `"jugando"`. -/
def salaTresTerminal : Sala :=
  (procesar_escritura (procesar_escritura (procesar_escritura salaTresAB
    "C" "mal" 1).1 "C" "mal" 1).1 "C" "mal" 1).1

/-- **C2** counterexample.  In the reachable room `salaTresTerminal` every
player either has progress 100 from an exact submission (A and B, the spec's
`Completed`) or is `Eliminated` (C), the room has 3 players, yet no submission
finished the round: the room state is still `"jugando"` and the last
submission broadcast no `partida_finalizada`. -/
theorem C2_contraejemplo :
    (∀ j ∈ salaTresTerminal.jugadores,
      j.progreso = 100 ∨ j.estado = EstadoJugador.eliminado) ∧
    salaTresTerminal.jugadores.length = 3 ∧
    salaTresTerminal.estado = "jugando" := by
  with_unfolding_all decide

/-- `salaDosJugando` after both players submitted the exact phrase: every
player has progress 100, so this submission finishes the round. -/
def salaDosAmbos : Sala :=
  (procesar_escritura (procesar_escritura salaDosJugando "A" "uno dos" 4).1
    "B" "uno dos" 6).1

/-- `salaDosJugando` after B submits wrong text three times: B is eliminated,
leaving A as the only player in state `JUGANDO`. -/
def salaDosBFuera : Sala :=
  (procesar_escritura (procesar_escritura (procesar_escritura salaDosJugando
    "B" "x" 1).1 "B" "x" 1).1 "B" "x" 1).1

/-- **C2** amended.  The termination check after a submission finishes the
round only when (a) every player of the room has progress 100, with winner the
first listed player of maximal wpm, or (b) exactly one player is in state
`JUGANDO` in a room of more than one player, with that survivor as winner; in
addition (c) an elimination for accumulated errors that leaves no player in
state `JUGANDO` finishes the round with winner none. -/
theorem C2_terminacion_enmendada (sala : Sala) :
    ((sala.jugadores.filter (fun j => j.progreso == (100 : ℚ))).length =
        sala.jugadores.length →
      verificar_terminacion sala =
        ({ sala with estado := "finalizada" },
          [Evento.partidaFinalizada ((mejorPorPpm sala.jugadores).map Jugador.id)])) ∧
    (∀ v, (sala.jugadores.filter (fun j => j.progreso == (100 : ℚ))).length ≠
        sala.jugadores.length →
      jugadoresVivos sala = [v] → 1 < sala.jugadores.length →
      verificar_terminacion sala =
        ({ sala with estado := "finalizada" }, [Evento.partidaFinalizada (some v.id)])) ∧
    (∀ jugador_id jugador, buscarJugador sala jugador_id = some jugador →
      jugadoresVivos { sala with
          jugadores := actualizarPrimero sala.jugadores jugador_id
            (fun j => { j with estado := EstadoJugador.eliminado }) } = [] →
      eliminar_jugador sala jugador_id =
        ({ sala with
            jugadores := actualizarPrimero sala.jugadores jugador_id
              (fun j => { j with estado := EstadoJugador.eliminado }),
            estado := "finalizada" },
          [Evento.jugadorEliminado jugador_id "demasiados_errores",
            Evento.partidaFinalizada none])) := by
  refine ⟨?_, ?_, ?_⟩
  · intro hc
    simp only [verificar_terminacion, finalizar_partida]
    rw [if_pos hc]
  · intro v hc hv hlen
    simp only [verificar_terminacion, finalizar_partida]
    rw [if_neg hc, hv]
    exact if_pos hlen
  · intro jugador_id jugador h hv
    simp only [eliminar_jugador, h, finalizar_partida]
    rw [hv]
    rfl

/-- Witness for C2: in `salaDosAmbos` every player has progress 100 and the
check finishes the round; in `salaDosBFuera` only A is `JUGANDO` and the check
declares A the winner. -/
theorem C2_terminacion_enmendada_testigo :
    verificar_terminacion salaDosAmbos =
      ({ salaDosAmbos with estado := "finalizada" },
        [Evento.partidaFinalizada ((mejorPorPpm salaDosAmbos.jugadores).map Jugador.id)]) ∧
    verificar_terminacion salaDosBFuera =
      ({ salaDosBFuera with estado := "finalizada" },
        [Evento.partidaFinalizada (some "A")]) :=
  ⟨(C2_terminacion_enmendada salaDosAmbos).1 (by with_unfolding_all decide),
   (C2_terminacion_enmendada salaDosBFuera).2.1
     { id := "A", nombre := "Ana", avatar := "a", estado := EstadoJugador.jugando,
       errores := 0, ppm := 0, progreso := 0, conectado := true }
     (by with_unfolding_all decide) (by with_unfolding_all decide)
     (by with_unfolding_all decide)⟩

/-- **C3** (code bug).  In the reachable room `salaTresAB` the timer expires
while A (progress 100, wpm 30) and B (progress 100, wpm 20) are still in state
`JUGANDO` and C never submitted.  The claim requires every still-Playing
player to become `Eliminated(timeout)` and the winner to be the
`(progress desc, wpm desc)`-maximal player, i.e. A.  The code instead
eliminates only C (the `progreso < 100` filter skips A and B, who are still
`JUGANDO` because no `JUGADO`/completed member exists), then sees two
`JUGANDO` players and finishes with winner none. -/
theorem C3_expiracion_comportamiento :
    (monitor_tiempo_ronda salaTresAB).1.estado = "finalizada" ∧
    (buscarJugador salaTresAB "A").map Jugador.estado = some EstadoJugador.jugando ∧
    (buscarJugador (monitor_tiempo_ronda salaTresAB).1 "A").map Jugador.estado =
      some EstadoJugador.jugando ∧
    (monitor_tiempo_ronda salaTresAB).2 =
      [Evento.jugadorEliminado "C" "tiempo_agotado", Evento.partidaFinalizada none] ∧
    (mejorPorProgresoPpm salaTresAB.jugadores).map Jugador.id = some "A" := by
  with_unfolding_all decide

/-- `salaBase [jugadorA, jugadorB] 4` already marked `"jugando"`. -/
def salaYaJugando : Sala := { salaBase [jugadorA, jugadorB] 4 with estado := "jugando" }

/-- **C4** counterexample.  Starting a round on a room that is already
`"jugando"` produces no broadcast at all — in particular no explicit error
result, contrary to the claim (the state is indeed unchanged). -/
theorem C4_contraejemplo :
    salaYaJugando.estado = "jugando" ∧
    iniciar_partida salaYaJugando [fraseUno] 0 0 = (salaYaJugando, []) := by
  with_unfolding_all decide

/-- **C4** amended.  Starting a round on a room that is already `"jugando"` is
a silent no-op: no state change and no message.  Starting with fewer than 2
players leaves the state unchanged and broadcasts an explicit error message. -/
theorem C4_inicio_enmendada (sala : Sala) (frases : List Frase) (eleccion : Nat)
    (ahora : ℚ) :
    (sala.estado = "jugando" →
      iniciar_partida sala frases eleccion ahora = (sala, [])) ∧
    (sala.estado ≠ "jugando" → sala.jugadores.length < 2 →
      iniciar_partida sala frases eleccion ahora =
        (sala, [Evento.mensajeError "No hay suficientes jugadores para iniciar."])) := by
  constructor
  · intro h
    simp only [iniciar_partida]
    rw [if_pos h]
  · intro h h2
    simp only [iniciar_partida]
    rw [if_neg h, if_pos h2]

/-- Witness for C4: the already-Playing room is returned untouched without a
message; a one-player waiting room is returned untouched with the error
message. -/
theorem C4_inicio_enmendada_testigo :
    iniciar_partida salaYaJugando [fraseUno] 0 0 = (salaYaJugando, []) ∧
    iniciar_partida (salaBase [jugadorA] 4) [fraseUno] 0 0 =
      (salaBase [jugadorA] 4,
        [Evento.mensajeError "No hay suficientes jugadores para iniciar."]) :=
  ⟨(C4_inicio_enmendada salaYaJugando [fraseUno] 0 0).1 rfl,
   (C4_inicio_enmendada (salaBase [jugadorA] 4) [fraseUno] 0 0).2
     (by decide) (by decide)⟩

/-- `salaDosJugando` after A's websocket drops: A is marked disconnected. -/
def salaADesconectado : Sala := marcar_desconectado salaDosJugando "A"

/-- **C5** (code bug).  After A disconnects, a `reconnect` event for A returns
the room completely unchanged — `reconectar_jugador` never resets
`conectado := true` for a player already present.  When the 25-second grace
window then elapses, `remover_si_no_reconecta` still sees `conectado = false`
and removes A from the room, contrary to the claim that a reconnect within the
window restores `connected=true` and prevents removal. -/
theorem C5_reconexion_comportamiento :
    (buscarJugador salaADesconectado "A").map Jugador.conectado = some false ∧
    (reconectar_jugador salaADesconectado "A" (some jugadorA)).1 = salaADesconectado ∧
    ((remover_si_no_reconecta
        (reconectar_jugador salaADesconectado "A" (some jugadorA)).1 "A").1.map
      (fun s => buscarJugador s "A")) = some none := by
  with_unfolding_all decide

/-- **C6** counterexample.  `salaDosAmbos` is reached by starting a round and
letting both players complete it: the round is finished (`"finalizada"`), yet
`frase_actual` and `tiempo_inicio` are still both set, because
`finalizar_partida` never clears them.  The claimed biconditional
`Playing ⇔ (phrase set ∧ start set)` is false for this reachable room. -/
theorem C6_contraejemplo :
    ¬ (salaDosAmbos.estado = "jugando" ↔
        (salaDosAmbos.frase_actual.isSome ∧ salaDosAmbos.tiempo_inicio.isSome)) := by
  with_unfolding_all decide

/-- The amended room invariant: a `"jugando"` room has its start timestamp
set, and also its phrase set provided the phrase pool is nonempty.  (The
converse direction of the original claim is dropped: finished rooms keep both
fields set.) -/
def InvarianteJugando (frases : List Frase) (sala : Sala) : Prop :=
  sala.estado = "jugando" →
    sala.tiempo_inicio.isSome ∧ (frases ≠ [] → sala.frase_actual.isSome)

/-- One step of the orchestrator on a single room: every operation of
`game_manager.py` / `routes_ws.py` that produces a new room state from an old
one (operations that delete the room have no target state). -/
inductive Paso (frases : List Frase) : Sala → Sala → Prop
  | iniciar (sala : Sala) (eleccion : Nat) (ahora : ℚ) :
      Paso frases sala (iniciar_partida sala frases eleccion ahora).1
  | escritura (sala : Sala) (jugador_id texto : String) (t : ℚ) :
      Paso frases sala (procesar_escritura sala jugador_id texto t).1
  | monitor (sala : Sala) : Paso frases sala (monitor_tiempo_ronda sala).1
  | eliminar (sala : Sala) (jugador_id : String) :
      Paso frases sala (eliminar_jugador sala jugador_id).1
  | finalizar (sala : Sala) (ganador_id : Option String) :
      Paso frases sala (finalizar_partida sala ganador_id).1
  | unir (sala sala' : Sala) (jugador : Jugador)
      (h : (unir_sala sala jugador).1 = some sala') : Paso frases sala sala'
  | unirWs (sala sala' : Sala) (jugador : Jugador)
      (h : (unir_sala_ws sala jugador).1 = some sala') : Paso frases sala sala'
  | reconectar (sala : Sala) (jugador_id : String) (jugador_bd : Option Jugador) :
      Paso frases sala (reconectar_jugador sala jugador_id jugador_bd).1
  | desconectar (sala : Sala) (jugador_id : String) :
      Paso frases sala (marcar_desconectado sala jugador_id)
  | abandonar (sala sala' : Sala) (jugador_id : String)
      (h : (abandonar_sala sala jugador_id).1 = some sala') : Paso frases sala sala'
  | gracia (sala sala' : Sala) (jugador_id : String)
      (h : (remover_si_no_reconecta sala jugador_id).1 = some sala') :
      Paso frases sala sala'

theorem verificar_terminacion_campos (sala : Sala) :
    (verificar_terminacion sala).1.frase_actual = sala.frase_actual ∧
    (verificar_terminacion sala).1.tiempo_inicio = sala.tiempo_inicio ∧
    ((verificar_terminacion sala).1.estado = sala.estado ∨
      (verificar_terminacion sala).1.estado = "finalizada") := by
  simp only [verificar_terminacion]
  split
  · exact ⟨rfl, rfl, Or.inr rfl⟩
  · split
    · split
      · exact ⟨rfl, rfl, Or.inr rfl⟩
      · exact ⟨rfl, rfl, Or.inl rfl⟩
    · exact ⟨rfl, rfl, Or.inl rfl⟩

theorem eliminar_jugador_campos (sala : Sala) (jugador_id : String) :
    (eliminar_jugador sala jugador_id).1.frase_actual = sala.frase_actual ∧
    (eliminar_jugador sala jugador_id).1.tiempo_inicio = sala.tiempo_inicio ∧
    ((eliminar_jugador sala jugador_id).1.estado = sala.estado ∨
      (eliminar_jugador sala jugador_id).1.estado = "finalizada") := by
  simp only [eliminar_jugador]
  split
  · exact ⟨rfl, rfl, Or.inl rfl⟩
  · split
    · exact ⟨rfl, rfl, Or.inr rfl⟩
    · exact ⟨rfl, rfl, Or.inr rfl⟩
    · exact ⟨rfl, rfl, Or.inl rfl⟩

theorem procesar_escritura_campos (sala : Sala) (jugador_id texto : String) (t : ℚ) :
    (procesar_escritura sala jugador_id texto t).1.frase_actual = sala.frase_actual ∧
    (procesar_escritura sala jugador_id texto t).1.tiempo_inicio = sala.tiempo_inicio ∧
    ((procesar_escritura sala jugador_id texto t).1.estado = sala.estado ∨
      (procesar_escritura sala jugador_id texto t).1.estado = "finalizada") := by
  cases h : buscarJugador sala jugador_id with
  | none =>
    have hred : procesar_escritura sala jugador_id texto t = (sala, []) := by
      simp only [procesar_escritura, h]
    rw [hred]
    exact ⟨rfl, rfl, Or.inl rfl⟩
  | some jugador =>
    by_cases hest : jugador.estado = EstadoJugador.jugando
    · by_cases hok : pyStrip texto = pyStrip (fraseActualTexto sala)
      · rw [procesar_escritura_correcto sala jugador_id texto t jugador h hest hok]
        exact verificar_terminacion_campos (salaTrasAcierto sala jugador_id t)
      · by_cases h3 : 3 ≤ jugador.errores + 1
        · rw [procesar_escritura_incorrecto_elim sala jugador_id texto t jugador h hest hok h3]
          have he := eliminar_jugador_campos (salaTrasFallo sala jugador_id) jugador_id
          have hv := verificar_terminacion_campos
            (eliminar_jugador (salaTrasFallo sala jugador_id) jugador_id).1
          refine ⟨hv.1.trans he.1, hv.2.1.trans he.2.1, ?_⟩
          rcases hv.2.2 with h1 | h1
          · rcases he.2.2 with h2 | h2
            · exact Or.inl (h1.trans h2)
            · exact Or.inr (h1.trans h2)
          · exact Or.inr h1
        · rw [procesar_escritura_incorrecto_sigue sala jugador_id texto t jugador h hest hok h3]
          exact verificar_terminacion_campos (salaTrasFallo sala jugador_id)
    · rw [procesar_escritura_sin_jugando sala jugador_id texto t jugador h hest]
      exact ⟨rfl, rfl, Or.inl rfl⟩

theorem monitor_tiempo_ronda_campos (sala : Sala) :
    (monitor_tiempo_ronda sala).1.frase_actual = sala.frase_actual ∧
    (monitor_tiempo_ronda sala).1.tiempo_inicio = sala.tiempo_inicio ∧
    ((monitor_tiempo_ronda sala).1.estado = sala.estado ∨
      (monitor_tiempo_ronda sala).1.estado = "finalizada") := by
  simp only [monitor_tiempo_ronda]
  split
  · exact ⟨rfl, rfl, Or.inl rfl⟩
  · split <;> exact ⟨rfl, rfl, Or.inr rfl⟩

theorem asegurar_host_campos (s : Sala) :
    (asegurar_host s).estado = s.estado ∧
    (asegurar_host s).frase_actual = s.frase_actual ∧
    (asegurar_host s).tiempo_inicio = s.tiempo_inicio := by
  simp only [asegurar_host]
  split
  · exact ⟨rfl, rfl, rfl⟩
  · split
    · exact ⟨rfl, rfl, rfl⟩
    · split <;> exact ⟨rfl, rfl, rfl⟩

theorem unir_sala_campos (sala : Sala) (jugador : Jugador) (s' : Sala)
    (h : (unir_sala sala jugador).1 = some s') :
    s'.estado = sala.estado ∧ s'.frase_actual = sala.frase_actual ∧
    s'.tiempo_inicio = sala.tiempo_inicio := by
  simp only [unir_sala] at h
  split at h
  · exact Option.noConfusion h
  · split at h
    · obtain rfl := Option.some.inj h
      exact ⟨rfl, rfl, rfl⟩
    · obtain rfl := Option.some.inj h
      exact ⟨rfl, rfl, rfl⟩

theorem unir_sala_ws_campos (sala : Sala) (jugador : Jugador) (s' : Sala)
    (h : (unir_sala_ws sala jugador).1 = some s') :
    s'.estado = sala.estado ∧ s'.frase_actual = sala.frase_actual ∧
    s'.tiempo_inicio = sala.tiempo_inicio := by
  simp only [unir_sala_ws] at h
  split at h
  · obtain rfl := Option.some.inj h
    exact ⟨rfl, rfl, rfl⟩
  · split at h
    · exact Option.noConfusion h
    · obtain rfl := Option.some.inj h
      exact ⟨rfl, rfl, rfl⟩

theorem reconectar_jugador_campos (sala : Sala) (jugador_id : String)
    (jugador_bd : Option Jugador) :
    (reconectar_jugador sala jugador_id jugador_bd).1.estado = sala.estado ∧
    (reconectar_jugador sala jugador_id jugador_bd).1.frase_actual = sala.frase_actual ∧
    (reconectar_jugador sala jugador_id jugador_bd).1.tiempo_inicio = sala.tiempo_inicio := by
  simp only [reconectar_jugador]
  split
  · exact ⟨rfl, rfl, rfl⟩
  · split <;> exact ⟨rfl, rfl, rfl⟩

theorem abandonar_sala_campos (sala : Sala) (jugador_id : String) (s' : Sala)
    (h : (abandonar_sala sala jugador_id).1 = some s') :
    s'.estado = sala.estado ∧ s'.frase_actual = sala.frase_actual ∧
    s'.tiempo_inicio = sala.tiempo_inicio := by
  simp only [abandonar_sala] at h
  split at h
  · exact Option.noConfusion h
  · obtain rfl := Option.some.inj h
    exact asegurar_host_campos _

theorem remover_si_no_reconecta_campos (sala : Sala) (jugador_id : String) (s' : Sala)
    (h : (remover_si_no_reconecta sala jugador_id).1 = some s') :
    s'.estado = sala.estado ∧ s'.frase_actual = sala.frase_actual ∧
    s'.tiempo_inicio = sala.tiempo_inicio := by
  simp only [remover_si_no_reconecta] at h
  split at h
  · split at h
    · obtain rfl := Option.some.inj h
      exact ⟨rfl, rfl, rfl⟩
    · exact abandonar_sala_campos sala jugador_id s' h
  · obtain rfl := Option.some.inj h
    exact ⟨rfl, rfl, rfl⟩

theorem iniciar_partida_casos (sala : Sala) (frases : List Frase) (eleccion : Nat)
    (ahora : ℚ) :
    (iniciar_partida sala frases eleccion ahora).1 = sala ∨
    ((iniciar_partida sala frases eleccion ahora).1.estado = "jugando" ∧
      (iniciar_partida sala frases eleccion ahora).1.tiempo_inicio = some ahora ∧
      (frases ≠ [] →
        (iniciar_partida sala frases eleccion ahora).1.frase_actual.isSome)) := by
  simp only [iniciar_partida]
  split
  · exact Or.inl rfl
  · split
    · exact Or.inl rfl
    · refine Or.inr ⟨rfl, rfl, ?_⟩
      intro hne
      have hemp : frases.isEmpty = false := by
        cases frases with
        | nil => exact absurd rfl hne
        | cons a l => rfl
      simp only [hemp, Bool.false_eq_true, if_false]
      have hlt : eleccion % frases.length < frases.length :=
        Nat.mod_lt _ (List.length_pos.mpr hne)
      rw [Option.isSome_iff_ne_none]
      intro hc
      rw [List.get?_eq_none] at hc
      omega

/-- Transfers the invariant along an operation that keeps the phrase and start
fields and either keeps the state or finishes the room. -/
theorem invariante_de_campos (frases : List Frase) (sala s' : Sala)
    (hinv : InvarianteJugando frases sala)
    (hf : s'.frase_actual = sala.frase_actual)
    (ht : s'.tiempo_inicio = sala.tiempo_inicio)
    (he : s'.estado = sala.estado ∨ s'.estado = "finalizada") :
    InvarianteJugando frases s' := by
  intro hj
  cases he with
  | inl h =>
    rw [h] at hj
    rw [hf, ht]
    exact hinv hj
  | inr h =>
    rw [h] at hj
    exact absurd hj (by decide)

/-- **C6** amended.  `Playing ⇒ fields set` half of the claimed invariant: a
fresh room satisfies it and every orchestrator step preserves it, where a
`"jugando"` room must have `tiempo_inicio` set and, whenever the phrase pool
is nonempty, `frase_actual` set.  (The converse direction is false: see the
counterexample — finishing a round keeps both fields set.) -/
theorem C6_invariante_enmendada (frases : List Frase) :
    (∀ sala_id codigo anfitrion tipo maxJ,
      InvarianteJugando frases (crear_sala sala_id codigo anfitrion tipo maxJ)) ∧
    (∀ sala sala', InvarianteJugando frases sala → Paso frases sala sala' →
      InvarianteJugando frases sala') := by
  constructor
  · intro sala_id codigo anfitrion tipo maxJ hj
    exact absurd hj (by simp [crear_sala])
  · intro sala sala' hinv hpaso
    cases hpaso with
    | iniciar eleccion ahora =>
      rcases iniciar_partida_casos sala frases eleccion ahora with heq | ⟨hje, hti, hfa⟩
      · rw [heq]
        exact hinv
      · intro _
        refine ⟨by rw [hti]; rfl, hfa⟩
    | escritura jugador_id texto t =>
      have hc := procesar_escritura_campos sala jugador_id texto t
      exact invariante_de_campos frases sala _ hinv hc.1 hc.2.1 hc.2.2
    | monitor =>
      have hc := monitor_tiempo_ronda_campos sala
      exact invariante_de_campos frases sala _ hinv hc.1 hc.2.1 hc.2.2
    | eliminar jugador_id =>
      have hc := eliminar_jugador_campos sala jugador_id
      exact invariante_de_campos frases sala _ hinv hc.1 hc.2.1 hc.2.2
    | finalizar ganador_id =>
      exact invariante_de_campos frases sala _ hinv rfl rfl (Or.inr rfl)
    | unir sala' jugador h =>
      have hc := unir_sala_campos sala jugador sala' h
      exact invariante_de_campos frases sala sala' hinv hc.2.1 hc.2.2 (Or.inl hc.1)
    | unirWs sala' jugador h =>
      have hc := unir_sala_ws_campos sala jugador sala' h
      exact invariante_de_campos frases sala sala' hinv hc.2.1 hc.2.2 (Or.inl hc.1)
    | reconectar jugador_id jugador_bd =>
      have hc := reconectar_jugador_campos sala jugador_id jugador_bd
      exact invariante_de_campos frases sala _ hinv hc.2.1 hc.2.2 (Or.inl hc.1)
    | desconectar jugador_id =>
      exact invariante_de_campos frases sala _ hinv rfl rfl (Or.inl rfl)
    | abandonar sala' jugador_id h =>
      have hc := abandonar_sala_campos sala jugador_id sala' h
      exact invariante_de_campos frases sala sala' hinv hc.2.1 hc.2.2 (Or.inl hc.1)
    | gracia sala' jugador_id h =>
      have hc := remover_si_no_reconecta_campos sala jugador_id sala' h
      exact invariante_de_campos frases sala sala' hinv hc.2.1 hc.2.2 (Or.inl hc.1)

/-- Witness for C6: the invariant holds for a freshly created room and is
carried by a concrete `iniciar_partida` step into `salaDosJugando`. -/
theorem C6_invariante_enmendada_testigo :
    InvarianteJugando [fraseUno] (crear_sala "s" "COD" jugadorA TipoSala.publica 4) ∧
    InvarianteJugando [fraseUno] salaDosJugando :=
  ⟨(C6_invariante_enmendada [fraseUno]).1 "s" "COD" jugadorA TipoSala.publica 4,
   (C6_invariante_enmendada [fraseUno]).2 (salaBase [jugadorA, jugadorB] 4) salaDosJugando
     (fun hj => absurd hj (by decide)) (Paso.iniciar (salaBase [jugadorA, jugadorB] 4) 0 0)⟩

/-- Two-player room that is already at its capacity of 2. -/
def salaLlenaDos : Sala := salaBase [jugadorA, jugadorB] 2

/-- **C7** counterexample.  A `reconnect` for player C, who is not in the full
room `salaLlenaDos`, appends C from the database with no capacity check: the
room ends up with 3 players over its `max_jugadores = 2`, violating the
claimed invariant for the reconnect path. -/
theorem C7_contraejemplo :
    salaLlenaDos.jugadores.length ≤ salaLlenaDos.max_jugadores ∧
    ¬ ((reconectar_jugador salaLlenaDos "C" (some jugadorC)).1.jugadores.length ≤
        (reconectar_jugador salaLlenaDos "C" (some jugadorC)).1.max_jugadores) := by
  with_unfolding_all decide

/-- **C7** amended.  `len(players) ≤ maxPlayers` is preserved by the HTTP join
and by the WebSocket join (a join against a full room is rejected with no
change), but not by the reconnect path, which appends an absent player
unconditionally. -/
theorem C7_capacidad_enmendada (sala : Sala) (jugador : Jugador)
    (hantes : sala.jugadores.length ≤ sala.max_jugadores) :
    (∀ s', (unir_sala sala jugador).1 = some s' →
      s'.jugadores.length ≤ s'.max_jugadores) ∧
    (∀ s', (unir_sala_ws sala jugador).1 = some s' →
      s'.jugadores.length ≤ s'.max_jugadores) := by
  constructor
  · intro s' hs'
    simp only [unir_sala] at hs'
    split at hs'
    · exact Option.noConfusion hs'
    · split at hs'
      · obtain rfl := Option.some.inj hs'
        exact hantes
      · obtain rfl := Option.some.inj hs'
        simp only [List.length_append, List.length_cons, List.length_nil]
        omega
  · intro s' hs'
    simp only [unir_sala_ws] at hs'
    split at hs'
    · obtain rfl := Option.some.inj hs'
      exact hantes
    · split at hs'
      · exact Option.noConfusion hs'
      · obtain rfl := Option.some.inj hs'
        simp only [List.length_append, List.length_cons, List.length_nil]
        omega

/-- Witness for C7: joining B into a one-seat-free room of capacity 2 keeps
the bound for both join paths. -/
theorem C7_capacidad_enmendada_testigo :
    (salaBase [jugadorA, jugadorB] 2).jugadores.length ≤
      (salaBase [jugadorA, jugadorB] 2).max_jugadores ∧
    (salaBase [jugadorA, jugadorB] 2).jugadores.length ≤
      (salaBase [jugadorA, jugadorB] 2).max_jugadores :=
  ⟨(C7_capacidad_enmendada (salaBase [jugadorA] 2) jugadorB (by decide)).1
      (salaBase [jugadorA, jugadorB] 2) (by with_unfolding_all decide),
   (C7_capacidad_enmendada (salaBase [jugadorA] 2) jugadorB (by decide)).2
      (salaBase [jugadorA, jugadorB] 2) (by with_unfolding_all decide)⟩

/-- **C8** (confirmed).  For a submission by a player in state `JUGANDO`, the
correctness test is exactly `texto.strip() == frase.strip()` (exact,
case-sensitive): the `jugador_completo` broadcast is emitted first if and only
if the trimmed texts are equal; and on a match the player's wpm is set to
`wordCount(phrase)/elapsed*60` when `elapsed > 0` and to `0` otherwise (the
code's extra `palabras > 0` guard does not change this value), with progress
set to 100. -/
theorem C8_prueba_correccion (sala : Sala) (jugador_id texto : String) (t : ℚ)
    (jugador : Jugador) (h : buscarJugador sala jugador_id = some jugador)
    (hest : jugador.estado = EstadoJugador.jugando) :
    ((procesar_escritura sala jugador_id texto t).2.head? =
        some (Evento.jugadorCompleto jugador_id
          (if 0 < t then (pyPalabras (fraseActualTexto sala) : ℚ) / t * 60 else 0) t)
      ↔ pyStrip texto = pyStrip (fraseActualTexto sala)) ∧
    (pyStrip texto = pyStrip (fraseActualTexto sala) →
      buscarJugador (procesar_escritura sala jugador_id texto t).1 jugador_id =
        some { jugador with
          ppm := if 0 < t then (pyPalabras (fraseActualTexto sala) : ℚ) / t * 60 else 0,
          progreso := 100 }) := by
  have hW := calcularPpm_formula (fraseActualTexto sala) t
  by_cases hok : pyStrip texto = pyStrip (fraseActualTexto sala)
  · have hred := procesar_escritura_correcto sala jugador_id texto t jugador h hest hok
    constructor
    · constructor
      · intro _
        exact hok
      · intro _
        rw [hred]
        simp only [List.head?_cons, hW]
    · intro _
      rw [hred]
      rw [show ((verificar_terminacion (salaTrasAcierto sala jugador_id t)).1,
          Evento.jugadorCompleto jugador_id
            (calcularPpm (palabrasFrase (fraseActualTexto sala)) t) t ::
          (verificar_terminacion (salaTrasAcierto sala jugador_id t)).2).1
        = (verificar_terminacion (salaTrasAcierto sala jugador_id t)).1 from rfl]
      rw [buscarJugador_verificar, buscarJugador_salaTrasAcierto, h, Option.map_some', hW]
  · have hred := procesar_escritura_incorrecto sala jugador_id texto t jugador h hest hok
    refine ⟨⟨fun hc => ?_, fun hk => absurd hk hok⟩, fun hk => absurd hk hok⟩
    rw [hred] at hc
    simp at hc

/-- Witness for C8: in `salaDosJugando`, A's exact submission after 4 s is
scored correct with wpm `2/4*60 = 30` and progress 100. -/
theorem C8_prueba_correccion_testigo :
    (((procesar_escritura salaDosJugando "A" "uno dos" 4).2.head? =
        some (Evento.jugadorCompleto "A"
          (if 0 < (4 : ℚ) then (pyPalabras (fraseActualTexto salaDosJugando) : ℚ) / 4 * 60 else 0) 4)
      ↔ pyStrip "uno dos" = pyStrip (fraseActualTexto salaDosJugando)) ∧
    (pyStrip "uno dos" = pyStrip (fraseActualTexto salaDosJugando) →
      buscarJugador (procesar_escritura salaDosJugando "A" "uno dos" 4).1 "A" =
        some { id := "A", nombre := "Ana", avatar := "a",
               estado := EstadoJugador.jugando, errores := 0,
               ppm := if 0 < (4 : ℚ)
                      then (pyPalabras (fraseActualTexto salaDosJugando) : ℚ) / 4 * 60
                      else 0,
               progreso := 100, conectado := true })) :=
  C8_prueba_correccion salaDosJugando "A" "uno dos" 4
    { id := "A", nombre := "Ana", avatar := "a", estado := EstadoJugador.jugando,
      errores := 0, ppm := 0, progreso := 0, conectado := true }
    (by with_unfolding_all decide) rfl

/-- **C9** (confirmed).  A submission from a player not in state `JUGANDO` — in
particular an eliminated player — is a complete no-op: the room is unchanged
and nothing is broadcast.  An incorrect submission from a `JUGANDO` player
increments their errors by exactly 1, sets progress to
`max(0, progress - 10)`, and the player ends up `ELIMINADO` precisely when the
new error count reaches 3. -/
theorem C9_errores_y_eliminacion (sala : Sala) (jugador_id texto : String) (t : ℚ)
    (jugador : Jugador) (h : buscarJugador sala jugador_id = some jugador) :
    (jugador.estado ≠ EstadoJugador.jugando →
      procesar_escritura sala jugador_id texto t = (sala, [])) ∧
    (jugador.estado = EstadoJugador.jugando →
     pyStrip texto ≠ pyStrip (fraseActualTexto sala) →
      ∃ j', buscarJugador (procesar_escritura sala jugador_id texto t).1 jugador_id =
          some j' ∧
        j'.errores = jugador.errores + 1 ∧
        j'.progreso = max 0 (jugador.progreso - 10) ∧
        (j'.estado = EstadoJugador.eliminado ↔ 3 ≤ jugador.errores + 1)) := by
  constructor
  · intro hest
    exact procesar_escritura_sin_jugando sala jugador_id texto t jugador h hest
  · intro hest hno
    have hb1 : buscarJugador (salaTrasFallo sala jugador_id) jugador_id =
        some { jugador with
               errores := jugador.errores + 1,
               progreso := max 0 (jugador.progreso - 10) } := by
      rw [buscarJugador_salaTrasFallo, h, Option.map_some']
    by_cases h3 : 3 ≤ jugador.errores + 1
    · refine ⟨{ jugador with
                errores := jugador.errores + 1,
                progreso := max 0 (jugador.progreso - 10),
                estado := EstadoJugador.eliminado }, ?_, rfl, rfl, ?_⟩
      · rw [procesar_escritura_incorrecto_elim sala jugador_id texto t jugador h hest hno h3]
        rw [show ((verificar_terminacion
            (eliminar_jugador (salaTrasFallo sala jugador_id) jugador_id).1).1,
            Evento.jugadorError jugador_id (jugador.errores + 1) ::
              ((eliminar_jugador (salaTrasFallo sala jugador_id) jugador_id).2 ++
                (verificar_terminacion
                  (eliminar_jugador (salaTrasFallo sala jugador_id) jugador_id).1).2)).1
          = (verificar_terminacion
              (eliminar_jugador (salaTrasFallo sala jugador_id) jugador_id).1).1 from rfl]
        rw [buscarJugador_verificar,
          buscarJugador_eliminar (salaTrasFallo sala jugador_id) jugador_id _ hb1]
      · simp [h3]
    · refine ⟨{ jugador with
                errores := jugador.errores + 1,
                progreso := max 0 (jugador.progreso - 10) }, ?_, rfl, rfl, ?_⟩
      · rw [procesar_escritura_incorrecto_sigue sala jugador_id texto t jugador h hest hno h3]
        rw [show ((verificar_terminacion (salaTrasFallo sala jugador_id)).1,
            Evento.jugadorError jugador_id (jugador.errores + 1) ::
              (verificar_terminacion (salaTrasFallo sala jugador_id)).2).1
          = (verificar_terminacion (salaTrasFallo sala jugador_id)).1 from rfl]
        rw [buscarJugador_verificar, hb1]
      · constructor
        · intro hj
          rw [hest] at hj
          exact absurd hj (by decide)
        · intro hc
          exact absurd hc h3

/-- Witness for C9: B of `salaDosBFuera` is eliminated after 3 errors, and B's
further submission is a no-op; also instantiated on a wrong first submission
by B in `salaDosJugando`. -/
theorem C9_errores_y_eliminacion_testigo :
    procesar_escritura salaDosBFuera "B" "uno dos" 2 = (salaDosBFuera, []) ∧
    (∃ j', buscarJugador (procesar_escritura salaDosJugando "B" "x" 1).1 "B" = some j' ∧
      j'.errores = 0 + 1 ∧
      j'.progreso = max 0 ((0 : ℚ) - 10) ∧
      (j'.estado = EstadoJugador.eliminado ↔ 3 ≤ 0 + 1)) :=
  ⟨(C9_errores_y_eliminacion salaDosBFuera "B" "uno dos" 2
      { id := "B", nombre := "Beto", avatar := "b", estado := EstadoJugador.eliminado,
        errores := 3, ppm := 0, progreso := 0, conectado := true }
      (by with_unfolding_all decide)).1 (by decide),
   (C9_errores_y_eliminacion salaDosJugando "B" "x" 1
      { id := "B", nombre := "Beto", avatar := "b", estado := EstadoJugador.jugando,
        errores := 0, ppm := 0, progreso := 0, conectado := true }
      (by with_unfolding_all decide)).2 rfl (by with_unfolding_all decide)⟩

theorem procesar_frase_vacia (S : Sala) (jugador_id texto : String) (t : ℚ)
    (jugador : Jugador) (hb : buscarJugador S jugador_id = some jugador)
    (hest : jugador.estado = EstadoJugador.jugando)
    (hfa : S.frase_actual = none) (htxt : pyStrip texto = "") :
    (procesar_escritura S jugador_id texto t).2.head? =
      some (Evento.jugadorCompleto jugador_id 0 t) ∧
    buscarJugador (procesar_escritura S jugador_id texto t).1 jugador_id =
      some { jugador with ppm := 0, progreso := 100 } := by
  have hft : fraseActualTexto S = "" := by
    unfold fraseActualTexto
    rw [hfa]
  have hok : pyStrip texto = pyStrip (fraseActualTexto S) := by
    rw [hft, show pyStrip "" = "" from by decide]
    exact htxt
  have hppm : calcularPpm (palabrasFrase (fraseActualTexto S)) t = 0 := by
    rw [hft]
    unfold palabrasFrase calcularPpm
    simp
  have hred := procesar_escritura_correcto S jugador_id texto t jugador hb hest hok
  constructor
  · rw [hred]
    simp only [List.head?_cons, hppm]
  · rw [hred]
    rw [show ((verificar_terminacion (salaTrasAcierto S jugador_id t)).1,
        Evento.jugadorCompleto jugador_id
          (calcularPpm (palabrasFrase (fraseActualTexto S)) t) t ::
        (verificar_terminacion (salaTrasAcierto S jugador_id t)).2).1
      = (verificar_terminacion (salaTrasAcierto S jugador_id t)).1 from rfl]
    rw [buscarJugador_verificar, buscarJugador_salaTrasAcierto, hb, Option.map_some', hppm]

/-- **C10** (confirmed).  With an empty phrase pool, starting a round with at
least 2 players still moves the room to `"jugando"` with `frase_actual` unset
and broadcasts `partida_iniciada` with the empty phrase text; in that round
any submission whose trimmed text is empty is scored correct for every
(necessarily `JUGANDO`) player, setting progress 100 and wpm 0. -/
theorem C10_pool_vacio (sala : Sala) (eleccion : Nat) (ahora : ℚ)
    (hnj : sala.estado ≠ "jugando") (h2 : ¬ sala.jugadores.length < 2) :
    (iniciar_partida sala [] eleccion ahora).1.estado = "jugando" ∧
    (iniciar_partida sala [] eleccion ahora).1.frase_actual = none ∧
    (iniciar_partida sala [] eleccion ahora).2 =
      [Evento.partidaIniciada "" sala.tiempo_limite (sala.ronda_actual + 1)] ∧
    (∀ jugador_id texto t jugador,
      buscarJugador (iniciar_partida sala [] eleccion ahora).1 jugador_id = some jugador →
      pyStrip texto = "" →
      (procesar_escritura (iniciar_partida sala [] eleccion ahora).1
          jugador_id texto t).2.head? =
        some (Evento.jugadorCompleto jugador_id 0 t) ∧
      buscarJugador (procesar_escritura (iniciar_partida sala [] eleccion ahora).1
          jugador_id texto t).1 jugador_id =
        some { jugador with ppm := 0, progreso := 100 }) := by
  have hred : iniciar_partida sala [] eleccion ahora =
      ({ sala with
          estado := "jugando",
          ronda_actual := sala.ronda_actual + 1,
          tiempo_inicio := some ahora,
          frase_actual := none,
          jugadores := sala.jugadores.map (fun j =>
            { j with estado := EstadoJugador.jugando, errores := 0,
                     progreso := 0, ppm := 0 }) },
        [Evento.partidaIniciada "" sala.tiempo_limite (sala.ronda_actual + 1)]) := by
    simp only [iniciar_partida]
    rw [if_neg hnj, if_neg h2]
    rfl
  rw [hred]
  refine ⟨rfl, rfl, rfl, ?_⟩
  intro jugador_id texto t jugador hb htxt
  have hmem := List.mem_of_find?_eq_some hb
  rw [show ({ sala with
      estado := "jugando",
      ronda_actual := sala.ronda_actual + 1,
      tiempo_inicio := some ahora,
      frase_actual := none,
      jugadores := sala.jugadores.map (fun j =>
        { j with estado := EstadoJugador.jugando, errores := 0,
                 progreso := 0, ppm := 0 }) } : Sala).jugadores
    = sala.jugadores.map (fun j =>
        { j with estado := EstadoJugador.jugando, errores := 0,
                 progreso := 0, ppm := 0 }) from rfl] at hmem
  rw [List.mem_map] at hmem
  obtain ⟨orig, _, heq⟩ := hmem
  have hest : jugador.estado = EstadoJugador.jugando := by
    rw [← heq]
  exact procesar_frase_vacia _ jugador_id texto t jugador hb hest rfl htxt

/-- Witness for C10: starting `salaBase [jugadorA, jugadorB] 4` with an empty
pool, then A submits `"   "` after 5 s: scored correct with wpm 0. -/
theorem C10_pool_vacio_testigo :
    (iniciar_partida (salaBase [jugadorA, jugadorB] 4) [] 0 0).1.estado = "jugando" ∧
    (iniciar_partida (salaBase [jugadorA, jugadorB] 4) [] 0 0).1.frase_actual = none ∧
    (procesar_escritura (iniciar_partida (salaBase [jugadorA, jugadorB] 4) [] 0 0).1
        "A" "   " 5).2.head? = some (Evento.jugadorCompleto "A" 0 5) :=
  ⟨(C10_pool_vacio (salaBase [jugadorA, jugadorB] 4) 0 0 (by decide) (by decide)).1,
   (C10_pool_vacio (salaBase [jugadorA, jugadorB] 4) 0 0 (by decide) (by decide)).2.1,
   ((C10_pool_vacio (salaBase [jugadorA, jugadorB] 4) 0 0 (by decide) (by decide)).2.2.2
      "A" "   " 5
      { id := "A", nombre := "Ana", avatar := "a", estado := EstadoJugador.jugando,
        errores := 0, ppm := 0, progreso := 0, conectado := true }
      (by with_unfolding_all decide) (by decide)).1⟩
